import Mathlib

/-!
Verification of the miscio backend core: the assistant run orchestrator
(`app/services/openai_service.py`), the tool dispatcher
(`app/api/v1/endpoints/chat.py`), the campaign broadcast engine and the
history search (`app/services/campaign_service.py`), and the conversation
store transaction of the `create_message` endpoint.

The embedding is shallow: the MongoDB collections become Lean lists, the
remote assistant platform becomes an environment of poll results, the
Twilio send becomes a success predicate over students, and exceptions
become `Except` / `Option` results.  Machine behaviour that the code does
not control (text-index relevance scores, remote run statuses) is taken
as a parameter.
-/

/-! ## Campaign broadcast engine (`app/services/campaign_service.py`) -/

/-- A document of the `students` collection.  Recipients are externally
sourced; the campaign engine reads `first_name` and `phone`, the search
joins in `first_name`/`last_name`. -/
structure Student where
  id : String
  first_name : String
  last_name : String
  phone : String
deriving DecidableEq

/-- A document of the `campaigns` collection, as written by
`create_campaign`: description, owning admin, status (`"active"` or
`"inactive"`) and creation time. -/
structure Campaign where
  id : String
  description : String
  admin_id : String
  status : String
  created_at : Nat
deriving DecidableEq

/-- A document of the `interactions` collection, as written by the
outreach loop of `create_campaign`. -/
structure Interaction where
  campaign_id : String
  student_id : String
  message : String
  type : String
  status : String
  timestamp : Nat
deriving DecidableEq

/-- The slice of the Mongo database the campaign service touches:
the `campaigns`, `students` and `interactions` collections. -/
structure CampaignDB where
  campaigns : List Campaign
  students : List Student
  interactions : List Interaction
deriving DecidableEq

/-- Effect of `update_many({"status": "active"}, {"$set": {"status":
"inactive"}})` on one campaign document. -/
def deactivate (c : Campaign) : Campaign :=
  if c.status = "active" then { c with status := "inactive" } else c

/-- `initial_message = f"Hi {student['first_name']}, {campaign}"`. -/
def initialMessage (campaign : String) (s : Student) : String :=
  "Hi " ++ s.first_name ++ ", " ++ campaign

/-- The interaction document recorded for one successfully messaged
student: type `"initial"`, status `"sent"`, tied to the new campaign. -/
def outreachRecord (newId campaign : String) (now : Nat) (s : Student) : Interaction :=
  { campaign_id := newId
    student_id := s.id
    message := initialMessage campaign s
    type := "initial"
    status := "sent"
    timestamp := now }

/-- The interaction documents inserted by the outreach loop.  The loop
walks the students in order; a student whose Twilio send raises is
logged and skipped (`except ... continue`), so exactly the students with
`sendOk` get a record. -/
def outreachRecords (newId campaign : String) (now : Nat)
    (sendOk : Student → Bool) (students : List Student) : List Interaction :=
  (students.filter (fun s => sendOk s)).map (outreachRecord newId campaign now)

/-- `CampaignService.create_campaign(campaign, admin_id)`, success path.
Inside one Mongo transaction it deactivates every active campaign,
inserts the new campaign as `"active"` (the store assigns `newId`),
loads all students and runs the outreach loop.  `sendOk` abstracts
whether the Twilio send (and the subsequent insert) of one student
succeeds; `now` abstracts `datetime.utcnow()`.  Returns the new database
state and the created campaign document. -/
def create_campaign (db : CampaignDB) (sendOk : Student → Bool)
    (newId campaign admin_id : String) (now : Nat) : CampaignDB × Campaign :=
  let newCampaign : Campaign :=
    { id := newId
      description := campaign
      admin_id := admin_id
      status := "active"
      created_at := now }
  ({ campaigns := db.campaigns.map deactivate ++ [newCampaign]
     students := db.students
     interactions := db.interactions ++ outreachRecords newId campaign now sendOk db.students },
   newCampaign)

/-- Number of campaigns whose status is `"active"`. -/
def countActive (db : CampaignDB) : Nat :=
  (db.campaigns.filter (fun c => c.status = "active")).length

/-- The `initial`-type, `sent`-status interaction records of one
campaign. -/
def sentRecordsFor (db : CampaignDB) (cid : String) : List Interaction :=
  db.interactions.filter
    (fun i => i.campaign_id = cid ∧ i.type = "initial" ∧ i.status = "sent")

/-! ## History search (`CampaignService.query_student_chats`) -/

/-- Search failure: any exception inside `query_student_chats` is caught
and re-raised as an HTTP 500 (`SearchUnavailable`). -/
inductive SearchErr where
  | searchUnavailable
deriving DecidableEq

/-- One row of the search result list built by the loop body of
`query_student_chats`. -/
structure ChatResult where
  student_name : String
  campaign_description : String
  message : String
  timestamp : Nat
  type : String
deriving DecidableEq

/-- `find({"$text": {"$search": query}})`: the interactions whose message
matches the query, i.e. receives a positive relevance score.  `score`
abstracts the Mongo text index's `textScore`. -/
def matchedInteractions (score : String → String → Nat) (q : String)
    (db : CampaignDB) : List Interaction :=
  db.interactions.filter (fun i => 0 < score q i.message)

/-- Descending order on the text-relevance score, the sort key of
`.sort([("score", {"$meta": "textScore"})])`. -/
def scoreGE (score : String → String → Nat) (q : String) (a b : Interaction) : Prop :=
  score q b.message ≤ score q a.message

instance scoreGE.decRel (score : String → String → Nat) (q : String) :
    DecidableRel (scoreGE score q) :=
  fun a b => Nat.decLe (score q b.message) (score q a.message)

instance scoreGE.total (score : String → String → Nat) (q : String) :
    IsTotal Interaction (scoreGE score q) :=
  ⟨fun a b => Nat.le_total (score q b.message) (score q a.message)⟩

instance scoreGE.trans (score : String → String → Nat) (q : String) :
    IsTrans Interaction (scoreGE score q) :=
  ⟨fun _ _ _ hab hbc => Nat.le_trans hbc hab⟩

/-- The cursor the loop of `query_student_chats` iterates: matching
interactions, sorted by descending relevance, truncated to `limit`. -/
def selectInteractions (score : String → String → Nat) (q : String)
    (limit : Nat) (db : CampaignDB) : List Interaction :=
  (List.insertionSort (scoreGE score q) (matchedInteractions score q db)).take limit

/-- `db.students.find_one({"_id": interaction["student_id"]})`. -/
def findStudent (db : CampaignDB) (sid : String) : Option Student :=
  db.students.find? (fun s => s.id = sid)

/-- `db.campaigns.find_one({"_id": interaction["campaign_id"]})`. -/
def findCampaign (db : CampaignDB) (cid : String) : Option Campaign :=
  db.campaigns.find? (fun c => c.id = cid)

/-- `campaign["description"] if campaign else "Unknown Campaign"`. -/
def campaignDescOf (db : CampaignDB) (cid : String) : String :=
  match findCampaign db cid with
  | some c => c.description
  | none => "Unknown Campaign"

/-- The result row built for one interaction, assuming the student
lookup succeeded (its name fields are read unconditionally). -/
def buildRow (db : CampaignDB) (i : Interaction) : ChatResult :=
  { student_name :=
      match findStudent db i.student_id with
      | some s => s.first_name ++ " " ++ s.last_name
      | none => ""
    campaign_description := campaignDescOf db i.campaign_id
    message := i.message
    timestamp := i.timestamp
    type := i.type }

/-- One iteration of the result loop.  A missing campaign is tolerated
through the `"Unknown Campaign"` sentinel, but a missing student makes
`student["first_name"]` raise, which the `except` clause converts into
the HTTP 500 failure. -/
def buildResult (db : CampaignDB) (i : Interaction) : Except SearchErr ChatResult :=
  match findStudent db i.student_id with
  | none => .error .searchUnavailable
  | some _ => .ok (buildRow db i)

/-- The `async for` accumulation: rows are built in cursor order and the
first raising iteration aborts the whole operation. -/
def collectResults (db : CampaignDB) : List Interaction → Except SearchErr (List ChatResult)
  | [] => .ok []
  | i :: rest =>
    match buildResult db i with
    | .error e => .error e
    | .ok r =>
      match collectResults db rest with
      | .error e => .error e
      | .ok rs => .ok (r :: rs)

/-- `CampaignService.query_student_chats(query, limit)`. -/
def query_student_chats (score : String → String → Nat) (db : CampaignDB)
    (q : String) (limit : Nat) : Except SearchErr (List ChatResult) :=
  collectResults db (selectInteractions score q limit db)

/-! ## Tool dispatcher (`handle_tool_calls` in `app/api/v1/endpoints/chat.py`) -/

/-- One tool invocation as delivered by the platform while a run is
paused: its id, the function name, and the argument payload.  `argsOk`
records whether `json.loads(tool_call["function"]["arguments"])`
succeeds; `campaign_description` and `query` are the two argument keys
the dispatcher reads (`none` models a missing key, whose access raises
`KeyError`). -/
structure ToolCall where
  id : String
  fname : String
  argsOk : Bool
  campaign_description : Option String
  query : Option String
deriving DecidableEq

/-- The JSON payload placed in a tool output's `output` field. -/
inductive Payload where
  | success (message : String)
  | results (rs : List ChatResult)
  | error (message : String)
deriving DecidableEq

/-- One element of the `tool_outputs` list. -/
structure ToolOutput where
  tool_call_id : String
  output : Payload
deriving DecidableEq

/-- The services the dispatcher calls, as it sees them: each call either
returns or raises (an `HTTPException`), modelled by `Except`. -/
structure ServiceEnv where
  runCampaign : String → Except String Unit
  queryChats : String → Except String (List ChatResult)

/-- The body of the dispatch loop for one tool call.  Everything inside
the `try` block is guarded by an `except` clause that appends an error
output carrying the call's id, so every raising path yields `some`
error output.  The single path that appends nothing — and raises
nothing — is a recognised-argument call whose function name is neither
`run_campaign` nor `query_student_chats`: the `if`/`elif` chain has no
`else`, and the loop falls through to the next call. -/
def processToolCall (env : ServiceEnv) (tc : ToolCall) : Option ToolOutput :=
  if tc.argsOk = false then
    some { tool_call_id := tc.id, output := .error ("invalid function arguments") }
  else if tc.fname = "run_campaign" then
    match tc.campaign_description with
    | none => some { tool_call_id := tc.id, output := .error ("campaign_description") }
    | some d =>
      match env.runCampaign d with
      | .ok _ =>
        some { tool_call_id := tc.id
               output := .success ("Campaign started successfully with description: " ++ d) }
      | .error e => some { tool_call_id := tc.id, output := .error e }
  else if tc.fname = "query_student_chats" then
    match tc.query with
    | none => some { tool_call_id := tc.id, output := .error ("query") }
    | some s =>
      match env.queryChats s with
      | .ok rs => some { tool_call_id := tc.id, output := .results rs }
      | .error e => some { tool_call_id := tc.id, output := .error e }
  else
    none

/-- `handle_tool_calls(tool_calls, current_admin, campaign_service)`:
walks the batch in order and appends the outputs produced by each
call. -/
def handle_tool_calls (env : ServiceEnv) (calls : List ToolCall) : List ToolOutput :=
  calls.filterMap (processToolCall env)

/-- A well-formed call the dispatcher drops without producing an
output: its arguments parse, but its function name matches neither
dispatch branch. -/
def unknownName (tc : ToolCall) : Prop :=
  tc.argsOk = true ∧ tc.fname ≠ "run_campaign" ∧ tc.fname ≠ "query_student_chats"

instance (tc : ToolCall) : Decidable (unknownName tc) := by
  unfold unknownName
  infer_instance

/-! ## Run orchestrator (`OpenAIService.process_message`) -/

/-- The platform's run status vocabulary. -/
inductive RunStatus where
  | queued
  | in_progress
  | requires_action
  | completed
  | failed
  | cancelled
  | expired
deriving DecidableEq

/-- One `GET .../runs/{run_id}` poll result: the run status and, when it
is `requires_action`, the pending tool calls of
`required_action.submit_tool_outputs.tool_calls`. -/
structure PollResult where
  status : RunStatus
  tool_calls : List ToolCall
deriving DecidableEq

/-- The remote platform's behaviour during one `process_message`
invocation: the successive poll results, and the message page returned
by `GET .../messages?limit=1&order=desc` on completion (each message is
the list of `text.value` strings of its content parts, with `""` for a
missing or empty value, both falsy in the Python checks). -/
structure OrchEnv where
  polls : List PollResult
  finalMessages : List (List String)
deriving DecidableEq

/-- How one `process_message` invocation ends abnormally.  The
`terminated` case is the `Exception(f"Run failed with status: ...")`
raise; `outOfPolls` is a model artifact marking that the unbounded
`while True` loop consumed every provided poll result without reaching
a decision. -/
inductive OrchError where
  | unsupportedToolExecution
  | terminated (s : RunStatus)
  | invalidMessageResponse
  | invalidMessageContent
  | outOfPolls
deriving DecidableEq

/-- The requests `process_message` can address to the platform.  The
platform interface also offers `listRuns` and `cancelRun`; they are part
of the vocabulary so that their (non-)use can be stated. -/
inductive ApiReq where
  | createMessage (threadId content : String)
  | createRun (threadId assistantId : String)
  | getRunStatus (threadId : String)
  | submitToolOutputs (threadId : String) (outputs : List ToolOutput)
  | listMessages (threadId : String)
  | listRuns (threadId : String)
  | cancelRun (threadId runId : String)
deriving DecidableEq

def isListRuns : ApiReq → Bool
  | .listRuns _ => true
  | _ => false

def isCancelRun : ApiReq → Bool
  | .cancelRun _ _ => true
  | _ => false

def isCreateRun : ApiReq → Bool
  | .createRun _ _ => true
  | _ => false

def isSubmitToolOutputs : ApiReq → Bool
  | .submitToolOutputs _ _ => true
  | _ => false

def isGetRunStatus : ApiReq → Bool
  | .getRunStatus _ => true
  | _ => false

/-- The `while True` status-polling loop of `process_message`, driven by
the successive poll results.  Returns the outcome and the trace of
platform requests issued from the first poll on.  The branch structure
mirrors the Python `if`/`elif` chain: `requires_action` dispatches the
batch through the handler and submits every returned output (or raises
when no handler was provided); `completed` fetches the newest message
and validates its shape; `failed`/`cancelled`/`expired` raise carrying
the status; anything else sleeps and polls again. -/
def runLoop (tid : String) (handler : Option (List ToolCall → List ToolOutput))
    (finalMsgs : List (List String)) :
    List PollResult → Except OrchError String × List ApiReq
  | [] => (.error .outOfPolls, [])
  | p :: rest =>
    if p.status = .requires_action then
      match handler with
      | some h =>
        ((runLoop tid handler finalMsgs rest).1,
         .getRunStatus tid :: .submitToolOutputs tid (h p.tool_calls) ::
           (runLoop tid handler finalMsgs rest).2)
      | none => (.error .unsupportedToolExecution, [.getRunStatus tid])
    else if p.status = .completed then
      match finalMsgs with
      | [] => (.error .invalidMessageResponse, [.getRunStatus tid, .listMessages tid])
      | m :: _ =>
        match m with
        | [] => (.error .invalidMessageContent, [.getRunStatus tid, .listMessages tid])
        | t :: _ =>
          if t = "" then (.error .invalidMessageContent, [.getRunStatus tid, .listMessages tid])
          else (.ok t, [.getRunStatus tid, .listMessages tid])
    else if p.status = .failed ∨ p.status = .cancelled ∨ p.status = .expired then
      (.error (.terminated p.status), [.getRunStatus tid])
    else
      ((runLoop tid handler finalMsgs rest).1,
       .getRunStatus tid :: (runLoop tid handler finalMsgs rest).2)

/-- `OpenAIService.process_message(thread_id, message, assistant_id,
run_handler)`: appends the user message to the remote thread, starts a
run, then polls to a terminal outcome.  Returns the outcome and the
full request trace. -/
def process_message (tid msg aid : String)
    (handler : Option (List ToolCall → List ToolOutput)) (env : OrchEnv) :
    Except OrchError String × List ApiReq :=
  ((runLoop tid handler env.finalMessages env.polls).1,
   .createMessage tid msg :: .createRun tid aid ::
     (runLoop tid handler env.finalMessages env.polls).2)

/-! ## Conversation store (`create_message` in `app/api/v1/endpoints/chat.py`) -/

/-- One message of a thread's chat history. -/
structure ChatMsg where
  role : String
  content : String
  timestamp : Nat
deriving DecidableEq

/-- A document of the `chat_histories` collection. -/
structure ChatHistoryDoc where
  thread_id : String
  admin_id : String
  messages : List ChatMsg
deriving DecidableEq

/-- A document of the `threads` collection (the fields the transaction
touches). -/
structure ThreadDoc where
  id : String
  last_message : String
  last_activity : Nat
deriving DecidableEq

/-- The slice of the database the `create_message` transaction touches. -/
structure ConvState where
  chat_histories : List ChatHistoryDoc
  threads : List ThreadDoc
deriving DecidableEq

/-- `update_one`: rewrite the first document matching `p` with `f`,
leaving the rest untouched. -/
def updateFirst (p : α → Bool) (f : α → α) : List α → List α
  | [] => []
  | x :: xs => if p x then f x :: xs else x :: updateFirst p f xs

/-- `chat_histories.update_one({"thread_id": ..., "admin_id": ...},
{"$push": {"messages": {"$each": msgs}}}, upsert=True)`. -/
def pushMessages (tid aid : String) (msgs : List ChatMsg)
    (docs : List ChatHistoryDoc) : List ChatHistoryDoc :=
  if docs.any (fun h => h.thread_id = tid ∧ h.admin_id = aid) then
    updateFirst (fun h => h.thread_id = tid ∧ h.admin_id = aid)
      (fun h => { h with messages := h.messages ++ msgs }) docs
  else
    docs ++ [{ thread_id := tid, admin_id := aid, messages := msgs }]

/-- `threads.update_one({"id": thread_id}, {"$set": {"last_message":
..., "last_activity": ...}})` (no upsert). -/
def updateThreadMeta (tid content : String) (now : Nat)
    (docs : List ThreadDoc) : List ThreadDoc :=
  updateFirst (fun t => t.id = tid)
    (fun t => { t with last_message := content, last_activity := now }) docs

/-- The two messages the endpoint appends for one exchange: the user
message and the assistant reply. -/
def exchangeMessages (content response : String) (now : Nat) : List ChatMsg :=
  [{ role := "user", content := content, timestamp := now },
   { role := "assistant", content := response, timestamp := now }]

/-- The body of the `session.start_transaction()` block of
`create_message`: both collection updates, applied as one state
transition. -/
def create_message_txn (tid aid content response : String) (now : Nat)
    (st : ConvState) : ConvState :=
  { chat_histories := pushMessages tid aid (exchangeMessages content response now) st.chat_histories
    threads := updateThreadMeta tid content now st.threads }

/-- Executing the transaction against the document store: it either
commits — both updates land — or aborts, leaving the state untouched.
`commit` abstracts the store's commit/abort decision. -/
def run_create_message_txn (commit : Bool) (tid aid content response : String)
    (now : Nat) (st : ConvState) : ConvState :=
  if commit then create_message_txn tid aid content response now st else st

/-! ## Concrete instances used by witnesses and counterexamples -/

/-- A service environment in which both services succeed. -/
def envNull : ServiceEnv := ⟨fun _ => .ok (), fun _ => .ok []⟩

/-- A service environment in which `create_campaign` raises. -/
def envMix : ServiceEnv := ⟨fun _ => .error ("database unavailable"), fun _ => .ok []⟩

def tcUnknown : ToolCall := ⟨("call_1"), ("send_email"), true, none, none⟩

def tcUnknown5 : ToolCall := ⟨("call_9"), ("delete_student"), true, none, none⟩

def tcRunW : ToolCall := ⟨("call_2"), ("run_campaign"), true, some ("midterm feedback"), none⟩

def tcQueryW : ToolCall := ⟨("call_3"), ("query_student_chats"), true, none, some ("midterms")⟩

def sAlice : Student := ⟨("s1"), ("Alice"), ("Ng"), ("555-0001")⟩

def sBob : Student := ⟨("s2"), ("Bob"), ("Lee"), ("555-0002")⟩

def sCara : Student := ⟨("s3"), ("Cara"), ("Diaz"), ("555-0003")⟩

def db4 : CampaignDB := ⟨[], [sAlice, sBob, sCara], []⟩

/-- A send outcome in which exactly the third student's Twilio send
raises. -/
def sendOk4 : Student → Bool := fun s => s.id != "s3"

/-- A concrete relevance score: the length of the message (every
message matches). -/
def scoreLen : String → String → Nat := fun _ m => m.length

def iAlice : Interaction := ⟨("c1"), ("s1"), ("midterm feedback"), ("initial"), ("sent"), 5⟩

def db6 : CampaignDB := ⟨[], [sAlice], [iAlice]⟩

def rs6 : List ChatResult :=
  [⟨("Alice Ng"), ("Unknown Campaign"), ("midterm feedback"), 5, ("initial")⟩]

def iGhost : Interaction := ⟨("c1"), ("ghost"), ("midterm report"), ("initial"), ("sent"), 3⟩

def db10 : CampaignDB := ⟨[], [], [iGhost]⟩

/-- Platform behaviour of one clean run: a single poll returning
`completed`, and a newest message whose first content part has text. -/
def envDone : OrchEnv := ⟨[⟨.completed, []⟩], [[("done")]]⟩

def pre7 : List PollResult := [⟨.queued, []⟩, ⟨.in_progress, []⟩]

def p7 : PollResult := ⟨.failed, []⟩

def pre8 : List PollResult := [⟨.queued, []⟩]

def p8 : PollResult := ⟨.requires_action, [tcRunW]⟩

/-! ## Theorems -/

/-- `update_many` leaves no campaign active. -/
theorem deactivate_status_ne (c : Campaign) : ¬ (deactivate c).status = "active" := by
  unfold deactivate
  by_cases h : c.status = "active" <;> simp [h]

/-- C3: after `create_campaign(description, admin_id)` returns
successfully, exactly one campaign has status `active` in the campaign
store, whatever the store held before: the transaction deactivates every
active campaign and inserts the single new active one as one state
transition. -/
theorem c3_exactly_one_active (db : CampaignDB) (sendOk : Student → Bool)
    (newId campaign admin_id : String) (now : Nat) :
    countActive (create_campaign db sendOk newId campaign admin_id now).1 = 1 := by
  unfold countActive create_campaign
  rw [List.filter_append]
  have hnil : (db.campaigns.map deactivate).filter (fun c => c.status = "active") = [] := by
    rw [List.filter_eq_nil_iff]
    intro a ha
    obtain ⟨c, _, rfl⟩ := List.mem_map.mp ha
    simpa using deactivate_status_ne c
  rw [hnil]
  simp

/-- C9: the `create_message` endpoint performs the chat-history append
and the thread metadata update inside one document-store transaction:
whatever the commit decision, either both collection updates land or
neither does — no state with only one of the two writes is
reachable. -/
theorem c9_exchange_persisted_atomically (commit : Bool)
    (tid aid content response : String) (now : Nat) (st : ConvState) :
    ((run_create_message_txn commit tid aid content response now st).chat_histories
        = pushMessages tid aid (exchangeMessages content response now) st.chat_histories ∧
      (run_create_message_txn commit tid aid content response now st).threads
        = updateThreadMeta tid content now st.threads) ∨
    ((run_create_message_txn commit tid aid content response now st).chat_histories
        = st.chat_histories ∧
      (run_create_message_txn commit tid aid content response now st).threads = st.threads) := by
  cases commit
  · right
    simp [run_create_message_txn]
  · left
    simp [run_create_message_txn, create_message_txn]

/-- A list splits into the elements a Bool predicate keeps and those it
rejects. -/
theorem filter_length_split {α : Type} (p : α → Bool) :
    ∀ l : List α, (l.filter p).length + (l.filter (fun s => !(p s))).length = l.length := by
  intro l
  induction l with
  | nil => rfl
  | cons x xs ih =>
    cases hx : p x <;> simp [List.filter_cons, hx, ← ih] <;> omega

/-- C4: per-recipient failure isolation of the broadcast loop.  If
exactly one student's send raises (`f`), the loop still reaches every
other student: afterwards the campaign has `K − 1` interaction records
of type `initial` with status `sent`, and no record of the failed
student exists for the campaign. -/
theorem c4_per_recipient_failure_isolated (db : CampaignDB) (sendOk : Student → Bool)
    (f : Student) (newId campaign admin_id : String) (now : Nat)
    (hNodup : (db.students.map Student.id).Nodup)
    (hFail : db.students.filter (fun s => !(sendOk s)) = [f])
    (hFresh : ∀ i ∈ db.interactions, i.campaign_id ≠ newId) :
    (sentRecordsFor (create_campaign db sendOk newId campaign admin_id now).1 newId).length
        = db.students.length - 1 ∧
    ((create_campaign db sendOk newId campaign admin_id now).1.interactions.countP
        (fun i => i.campaign_id = newId ∧ i.student_id = f.id)) = 0 := by
  have hfmem : f ∈ db.students.filter (fun s => !(sendOk s)) := by
    rw [hFail]
    exact List.mem_singleton_self f
  obtain ⟨hfin, hfsend⟩ := List.mem_filter.mp hfmem
  have hfsend' : sendOk f = false := by
    cases h : sendOk f
    · rfl
    · rw [h] at hfsend
      simp at hfsend
  constructor
  · have hrecs : sentRecordsFor (create_campaign db sendOk newId campaign admin_id now).1 newId
        = outreachRecords newId campaign now sendOk db.students := by
      unfold sentRecordsFor create_campaign
      rw [List.filter_append]
      have h1 : db.interactions.filter
          (fun i => i.campaign_id = newId ∧ i.type = "initial" ∧ i.status = "sent") = [] := by
        rw [List.filter_eq_nil_iff]
        intro i hi
        simp only [decide_eq_true_eq, not_and]
        intro hc
        exact absurd hc (hFresh i hi)
      have h2 : (outreachRecords newId campaign now sendOk db.students).filter
            (fun i => i.campaign_id = newId ∧ i.type = "initial" ∧ i.status = "sent")
          = outreachRecords newId campaign now sendOk db.students := by
        rw [List.filter_eq_self]
        intro i hi
        obtain ⟨s, _, rfl⟩ := List.mem_map.mp hi
        simp [outreachRecord]
      rw [h1, h2, List.nil_append]
    rw [hrecs]
    have hsplit := filter_length_split (fun s => sendOk s) db.students
    rw [hFail] at hsplit
    simp only [List.length_singleton] at hsplit
    unfold outreachRecords
    rw [List.length_map]
    omega
  · rw [List.countP_eq_zero]
    intro i hi
    unfold create_campaign at hi
    simp only at hi
    rcases List.mem_append.mp hi with hold | hnew
    · simp only [decide_eq_true_eq, not_and]
      intro hc
      exact absurd hc (hFresh i hold)
    · obtain ⟨s, hs, rfl⟩ := List.mem_map.mp hnew
      obtain ⟨hsin, hssend⟩ := List.mem_filter.mp hs
      simp only [outreachRecord, decide_eq_true_eq, not_and]
      intro _ hid
      have : s = f := List.inj_on_of_nodup_map hNodup hsin hfin hid
      rw [this, hfsend'] at hssend
      exact absurd hssend (by simp)

/-- C4 witness: three students, the third one's send fails; two `sent`
records exist, none for the failed student. -/
theorem c4_witness :
    ((db4.students.map Student.id).Nodup ∧
      db4.students.filter (fun s => !(sendOk4 s)) = [sCara] ∧
      ∀ i ∈ db4.interactions, i.campaign_id ≠ "c7") ∧
    ((sentRecordsFor (create_campaign db4 sendOk4 ("c7") ("midterm survey") ("a1") 9).1 ("c7")).length
        = db4.students.length - 1 ∧
      ((create_campaign db4 sendOk4 ("c7") ("midterm survey") ("a1") 9).1.interactions.countP
          (fun i => i.campaign_id = "c7" ∧ i.student_id = sCara.id)) = 0) :=
  ⟨⟨by decide, by decide, by decide⟩,
    c4_per_recipient_failure_isolated db4 sendOk4 sCara ("c7") ("midterm survey") ("a1") 9
      (by decide) (by decide) (by decide)⟩

/-- When the result loop finishes without raising, the result list is
the row image of the cursor, in cursor order. -/
theorem collectResults_ok (db : CampaignDB) :
    ∀ sel rs, collectResults db sel = .ok rs → rs = sel.map (buildRow db) := by
  intro sel
  induction sel with
  | nil =>
    intro rs h
    simp only [collectResults] at h
    cases h
    rfl
  | cons i rest ih =>
    intro rs h
    simp only [collectResults] at h
    cases hb : buildResult db i with
    | error e => rw [hb] at h; cases h
    | ok r =>
      rw [hb] at h
      cases hc : collectResults db rest with
      | error e => rw [hc] at h; cases h
      | ok rs2 =>
        rw [hc] at h
        cases h
        have hr : r = buildRow db i := by
          unfold buildResult at hb
          cases hfind : findStudent db i.student_id with
          | none => rw [hfind] at hb; cases hb
          | some s => rw [hfind] at hb; cases hb; rfl
        rw [List.map_cons, hr, ih rs2 hc]

/-- A missing student anywhere in the cursor aborts the whole loop. -/
theorem collectResults_error_of_missing (db : CampaignDB) :
    ∀ sel, (∃ i ∈ sel, findStudent db i.student_id = none) →
      collectResults db sel = .error .searchUnavailable := by
  intro sel
  induction sel with
  | nil =>
    intro h
    obtain ⟨i, hi, _⟩ := h
    cases hi
  | cons j rest ih =>
    intro h
    obtain ⟨i, hi, hmiss⟩ := h
    rcases List.mem_cons.mp hi with rfl | hrest
    · simp only [collectResults, buildResult, hmiss]
    · simp only [collectResults]
      cases hb : buildResult db j with
      | error e =>
        cases e
        rfl
      | ok r => rw [ih ⟨i, hrest, hmiss⟩]

/-- C6: whenever `query_student_chats(query, limit)` returns, it returns
at most `limit` rows, ordered by descending text-relevance score, and
each row's `campaign_description` is the description of the campaign the
underlying interaction references, with the `"Unknown Campaign"`
sentinel substituted when that campaign no longer exists
(`campaignDescOf`). -/
theorem c6_search_shape (score : String → String → Nat) (db : CampaignDB)
    (q : String) (limit : Nat) (rs : List ChatResult)
    (h : query_student_chats score db q limit = .ok rs) :
    rs.length ≤ limit ∧
    List.Pairwise (fun a b : ChatResult => score q b.message ≤ score q a.message) rs ∧
    ∀ r ∈ rs, ∃ i ∈ db.interactions,
      r.message = i.message ∧ r.campaign_description = campaignDescOf db i.campaign_id := by
  unfold query_student_chats at h
  have hmap := collectResults_ok db _ rs h
  have hsubsel : ∀ i ∈ selectInteractions score q limit db, i ∈ db.interactions := by
    intro i hi
    unfold selectInteractions at hi
    have h1 : i ∈ List.insertionSort (scoreGE score q) (matchedInteractions score q db) :=
      (List.take_sublist _ _).subset hi
    have h2 : i ∈ matchedInteractions score q db :=
      (List.perm_insertionSort _ _).mem_iff.mp h1
    exact List.mem_of_mem_filter h2
  refine ⟨?_, ?_, ?_⟩
  · rw [hmap, List.length_map]
    unfold selectInteractions
    exact List.length_take_le _ _
  · rw [hmap]
    rw [List.pairwise_map]
    have hsorted : List.Pairwise (scoreGE score q) (selectInteractions score q limit db) := by
      unfold selectInteractions
      exact (List.sorted_insertionSort (scoreGE score q) _).take
    exact hsorted.imp (fun hab => hab)
  · intro r hr
    rw [hmap] at hr
    obtain ⟨i, hi, rfl⟩ := List.mem_map.mp hr
    exact ⟨i, hsubsel i hi, rfl, rfl⟩

/-- C6 witness: one matching interaction whose student exists and whose
campaign is gone; the search succeeds with one sentinel-bearing row. -/
theorem c6_witness :
    (query_student_chats scoreLen db6 ("mid") 5 = .ok rs6) ∧
    (rs6.length ≤ 5 ∧
      List.Pairwise (fun a b : ChatResult =>
        scoreLen ("mid") b.message ≤ scoreLen ("mid") a.message) rs6 ∧
      ∀ r ∈ rs6, ∃ i ∈ db6.interactions,
        r.message = i.message ∧ r.campaign_description = campaignDescOf db6 i.campaign_id) :=
  ⟨by rfl, c6_search_shape scoreLen db6 ("mid") 5 rs6 (by rfl)⟩

/-- C10: a matching interaction whose student record is gone makes the
whole search fail (the `student["first_name"]` access raises, the
`except` clause turns it into the HTTP 500), returning no results at
all — in contrast with a missing campaign, which C6 shows is tolerated
through the sentinel. -/
theorem c10_missing_student_fails_search (score : String → String → Nat)
    (db : CampaignDB) (q : String) (limit : Nat)
    (h : ∃ i ∈ selectInteractions score q limit db, findStudent db i.student_id = none) :
    query_student_chats score db q limit = .error .searchUnavailable := by
  unfold query_student_chats
  exact collectResults_error_of_missing db _ h

/-- C10 witness: the single matching interaction references student
`"ghost"`, absent from the store; the search fails outright. -/
theorem c10_witness :
    (∃ i ∈ selectInteractions scoreLen ("mid") 5 db10, findStudent db10 i.student_id = none) ∧
    query_student_chats scoreLen db10 ("mid") 5 = .error .searchUnavailable :=
  ⟨by decide, c10_missing_student_fails_search scoreLen db10 ("mid") 5 (by decide)⟩

/-- A call bearing one of the two dispatched function names always
yields an output, and that output carries the call's id — every failure
path inside the loop body is caught and reported as an error output. -/
theorem processToolCall_known (env : ServiceEnv) (tc : ToolCall)
    (h : tc.fname = "run_campaign" ∨ tc.fname = "query_student_chats") :
    ∃ o, processToolCall env tc = some o ∧ o.tool_call_id = tc.id := by
  unfold processToolCall
  by_cases ha : tc.argsOk = false
  · exact ⟨_, by rw [if_pos ha], rfl⟩
  · rcases h with h | h
    · rw [if_neg ha, if_pos h]
      cases tc.campaign_description with
      | none => exact ⟨_, rfl, rfl⟩
      | some d =>
        dsimp only
        cases env.runCampaign d with
        | ok u => exact ⟨_, rfl, rfl⟩
        | error e => exact ⟨_, rfl, rfl⟩
    · have h' : ¬ tc.fname = "run_campaign" := by
        rw [h]
        decide
      rw [if_neg ha, if_neg h', if_pos h]
      cases tc.query with
      | none => exact ⟨_, rfl, rfl⟩
      | some s =>
        dsimp only
        cases env.queryChats s with
        | ok rs => exact ⟨_, rfl, rfl⟩
        | error e => exact ⟨_, rfl, rfl⟩

/-- C2 counterexample: a batch of one invocation whose function name is
unrecognised yields zero tool outputs, not one — the `if`/`elif` chain
has no `else`, so the invocation is dropped. -/
theorem c2_counterexample :
    ¬ (handle_tool_calls envNull [tcUnknown]).length = ([tcUnknown] : List ToolCall).length := by
  decide

/-- C2 (amended): for a batch of N invocations each named `run_campaign`
or `query_student_chats`, the dispatcher returns exactly N outputs, the
i-th carrying the i-th invocation's id, however many invocations
failed. -/
theorem c2_batch_preserved (env : ServiceEnv) (calls : List ToolCall)
    (h : ∀ tc ∈ calls, tc.fname = "run_campaign" ∨ tc.fname = "query_student_chats") :
    (handle_tool_calls env calls).length = calls.length ∧
    (handle_tool_calls env calls).map ToolOutput.tool_call_id = calls.map ToolCall.id := by
  induction calls with
  | nil => exact ⟨rfl, rfl⟩
  | cons tc rest ih =>
    obtain ⟨o, ho, hid⟩ := processToolCall_known env tc (h tc (List.mem_cons_self tc rest))
    obtain ⟨ihl, ihm⟩ := ih (fun x hx => h x (List.mem_cons_of_mem tc hx))
    unfold handle_tool_calls at ihl ihm ⊢
    rw [List.filterMap_cons, ho]
    constructor
    · simpa using ihl
    · simpa [hid] using ihm

/-- C2 witness: a three-call batch — a failing `run_campaign`, a
succeeding `query_student_chats`, a succeeding `run_campaign` — still
yields three outputs with matching ids. -/
theorem c2_witness :
    ((∀ tc ∈ [tcRunW, tcQueryW, tcRunW],
        tc.fname = "run_campaign" ∨ tc.fname = "query_student_chats") ∧
      (handle_tool_calls envMix [tcRunW, tcQueryW, tcRunW]).length
          = ([tcRunW, tcQueryW, tcRunW] : List ToolCall).length) ∧
    (handle_tool_calls envMix [tcRunW, tcQueryW, tcRunW]).map ToolOutput.tool_call_id
        = ([tcRunW, tcQueryW, tcRunW] : List ToolCall).map ToolCall.id :=
  ⟨⟨by decide, (c2_batch_preserved envMix [tcRunW, tcQueryW, tcRunW] (by decide)).1⟩,
    (c2_batch_preserved envMix [tcRunW, tcQueryW, tcRunW] (by decide)).2⟩

/-- C5 counterexample: for an invocation with an unrecognised function
name the dispatcher emits nothing at all — no output (and in particular
no "unsupported function" error payload) carries its id. -/
theorem c5_counterexample :
    ¬ ∃ o ∈ handle_tool_calls envNull [tcUnknown5], o.tool_call_id = tcUnknown5.id := by
  decide

/-- C5 (amended): an invocation whose arguments parse but whose function
name is neither `run_campaign` nor `query_student_chats` is silently
dropped: it contributes no tool output to the batch result (and the
dispatcher does not raise). -/
theorem c5_unknown_name_dropped (env : ServiceEnv) (tc : ToolCall) (rest : List ToolCall)
    (h : unknownName tc) :
    handle_tool_calls env (tc :: rest) = handle_tool_calls env rest := by
  obtain ⟨h1, h2, h3⟩ := h
  have hnone : processToolCall env tc = none := by
    unfold processToolCall
    rw [if_neg (by simp [h1]), if_neg h2, if_neg h3]
  unfold handle_tool_calls
  rw [List.filterMap_cons, hnone]

/-- C5 witness: the unknown-name call contributes nothing to a batch it
heads. -/
theorem c5_witness :
    unknownName tcUnknown5 ∧
    handle_tool_calls envNull (tcUnknown5 :: [tcRunW]) = handle_tool_calls envNull [tcRunW] :=
  ⟨by decide, c5_unknown_name_dropped envNull tcUnknown5 [tcRunW] (by decide)⟩

/-- Every request the polling loop issues is a status poll, a tool
output submission, or the final message fetch — never a run listing or
a run cancellation. -/
theorem runLoop_trace_shape (tid : String)
    (handler : Option (List ToolCall → List ToolOutput)) (fm : List (List String)) :
    ∀ polls, ∀ r ∈ (runLoop tid handler fm polls).2,
      isListRuns r = false ∧ isCancelRun r = false := by
  intro polls
  induction polls with
  | nil =>
    intro r hr
    simp [runLoop] at hr
  | cons p rest ih =>
    intro r hr
    unfold runLoop at hr
    by_cases h1 : p.status = .requires_action
    · rw [if_pos h1] at hr
      cases handler with
      | none =>
        simp only [List.mem_singleton] at hr
        rw [hr]
        exact ⟨rfl, rfl⟩
      | some h =>
        simp only [List.mem_cons] at hr
        rcases hr with rfl | rfl | hr
        · exact ⟨rfl, rfl⟩
        · exact ⟨rfl, rfl⟩
        · exact ih r hr
    · rw [if_neg h1] at hr
      by_cases h2 : p.status = .completed
      · rw [if_pos h2] at hr
        have hr2 : r ∈ ([ApiReq.getRunStatus tid, ApiReq.listMessages tid] : List ApiReq) := by
          rcases fm with _ | ⟨m, fmt⟩
          · exact hr
          · rcases m with _ | ⟨t, mt⟩
            · exact hr
            · dsimp only at hr
              by_cases h3 : t = ""
              · rwa [if_pos h3] at hr
              · rwa [if_neg h3] at hr
        simp only [List.mem_cons] at hr2
        rcases hr2 with rfl | rfl | hr2
        · exact ⟨rfl, rfl⟩
        · exact ⟨rfl, rfl⟩
        · simp at hr2
      · rw [if_neg h2] at hr
        by_cases h3 : p.status = .failed ∨ p.status = .cancelled ∨ p.status = .expired
        · rw [if_pos h3] at hr
          simp only [List.mem_singleton] at hr
          rw [hr]
          exact ⟨rfl, rfl⟩
        · rw [if_neg h3] at hr
          simp only [List.mem_cons] at hr
          rcases hr with rfl | hr
          · exact ⟨rfl, rfl⟩
          · exact ih r hr

/-- C1 counterexample: one clean invocation of `process_message` starts
a run (`createRun` appears once in its request trace) without a single
`listRuns` or `cancelRun` request — the claimed reconciliation step
(list the open runs, cancel the stale ones, before starting the new
run) does not exist in the code. -/
theorem c1_counterexample :
    (process_message ("t1") ("hello") ("a1") none envDone).2.countP isCreateRun = 1 ∧
    (process_message ("t1") ("hello") ("a1") none envDone).2.countP isListRuns = 0 ∧
    (process_message ("t1") ("hello") ("a1") none envDone).2.countP isCancelRun = 0 := by
  decide

/-- C1 (amended): `process_message` performs no reconciliation at all —
for every platform behaviour, its request trace contains no run listing
and no run cancellation; it goes straight to creating the user message
and the new run. -/
theorem c1_no_reconciliation (tid msg aid : String)
    (handler : Option (List ToolCall → List ToolOutput)) (env : OrchEnv) :
    (process_message tid msg aid handler env).2.countP isListRuns = 0 ∧
    (process_message tid msg aid handler env).2.countP isCancelRun = 0 := by
  have hshape := runLoop_trace_shape tid handler env.finalMessages env.polls
  unfold process_message
  rw [List.countP_eq_zero, List.countP_eq_zero]
  constructor
  · intro r hr
    simp only [List.mem_cons] at hr
    rcases hr with rfl | rfl | hr
    · simp [isListRuns]
    · simp [isListRuns]
    · simp [(hshape r hr).1]
  · intro r hr
    simp only [List.mem_cons] at hr
    rcases hr with rfl | rfl | hr
    · simp [isCancelRun]
    · simp [isCancelRun]
    · simp [(hshape r hr).2]

theorem countP_replicate_zero {α : Type} (p2 : α → Bool) (x : α) (k : Nat)
    (h : p2 x = false) : (List.replicate k x).countP p2 = 0 := by
  induction k with
  | zero => rfl
  | succ n ih => simp [List.replicate_succ, List.countP_cons, h, ih]

theorem countP_replicate_all {α : Type} (p2 : α → Bool) (x : α) (k : Nat)
    (h : p2 x = true) : (List.replicate k x).countP p2 = k := by
  induction k with
  | zero => rfl
  | succ n ih => simp [List.replicate_succ, List.countP_cons, h, ih]

/-- Polling through a prefix of `queued`/`in_progress` statuses and then
hitting a terminal-failure status: the loop raises carrying that status,
having issued exactly one status poll per iteration and nothing else. -/
theorem runLoop_terminated (tid : String)
    (handler : Option (List ToolCall → List ToolOutput)) (fm : List (List String)) :
    ∀ pre (p : PollResult) rest,
      (∀ q ∈ pre, q.status = .queued ∨ q.status = .in_progress) →
      (p.status = .failed ∨ p.status = .cancelled ∨ p.status = .expired) →
      runLoop tid handler fm (pre ++ p :: rest)
        = (.error (.terminated p.status),
           List.replicate (pre.length + 1) (.getRunStatus tid)) := by
  intro pre
  induction pre with
  | nil =>
    intro p rest _ hp
    rw [List.nil_append]
    unfold runLoop
    have h1 : ¬ p.status = .requires_action := by
      rcases hp with h | h | h <;> rw [h] <;> decide
    have h2 : ¬ p.status = .completed := by
      rcases hp with h | h | h <;> rw [h] <;> decide
    rw [if_neg h1, if_neg h2, if_pos hp]
    rfl
  | cons q pre ih =>
    intro p rest hpre hp
    have hq := hpre q (List.mem_cons_self q pre)
    have h1 : ¬ q.status = .requires_action := by
      rcases hq with h | h <;> rw [h] <;> decide
    have h2 : ¬ q.status = .completed := by
      rcases hq with h | h <;> rw [h] <;> decide
    have h3 : ¬ (q.status = .failed ∨ q.status = .cancelled ∨ q.status = .expired) := by
      rcases hq with h | h <;> rw [h] <;> decide
    rw [List.cons_append]
    unfold runLoop
    rw [if_neg h1, if_neg h2, if_neg h3,
      ih p rest (fun x hx => hpre x (List.mem_cons_of_mem q hx)) hp]
    simp [List.replicate_succ, List.length_cons]

/-- C7: when the polled status is `failed`, `cancelled` or `expired`
(after any number of pending polls), `process_message` raises an error
carrying that terminal status, and no tool outputs were ever submitted
in that invocation. -/
theorem c7_terminal_status_raises (tid msg aid : String)
    (handler : Option (List ToolCall → List ToolOutput)) (fm : List (List String))
    (pre rest : List PollResult) (p : PollResult)
    (hpre : ∀ q ∈ pre, q.status = .queued ∨ q.status = .in_progress)
    (hp : p.status = .failed ∨ p.status = .cancelled ∨ p.status = .expired) :
    (process_message tid msg aid handler ⟨pre ++ p :: rest, fm⟩).1
        = .error (.terminated p.status) ∧
    (process_message tid msg aid handler ⟨pre ++ p :: rest, fm⟩).2.countP
        isSubmitToolOutputs = 0 := by
  unfold process_message
  have hrun := runLoop_terminated tid handler fm pre p rest hpre hp
  dsimp only at hrun ⊢
  rw [hrun]
  refine ⟨rfl, ?_⟩
  have hz := countP_replicate_zero isSubmitToolOutputs (ApiReq.getRunStatus tid)
    (pre.length + 1) rfl
  simp [List.countP_cons, hz, isSubmitToolOutputs]

/-- C7 witness: statuses `queued → in_progress → failed` make the
orchestrator raise `Run failed with status: failed` without any tool
dispatch. -/
theorem c7_witness :
    ((∀ q ∈ pre7, q.status = .queued ∨ q.status = .in_progress) ∧
      (p7.status = .failed ∨ p7.status = .cancelled ∨ p7.status = .expired)) ∧
    ((process_message ("t1") ("run a campaign") ("a1") none ⟨pre7 ++ p7 :: [], []⟩).1
        = .error (.terminated p7.status) ∧
      (process_message ("t1") ("run a campaign") ("a1") none ⟨pre7 ++ p7 :: [], []⟩).2.countP
          isSubmitToolOutputs = 0) :=
  ⟨⟨by decide, by decide⟩,
    c7_terminal_status_raises ("t1") ("run a campaign") ("a1") none [] pre7 [] p7
      (by decide) (by decide)⟩

/-- Polling with no handler configured: the first `requires_action`
status makes the loop raise instead of submitting or polling again. -/
theorem runLoop_unsupported (tid : String) (fm : List (List String)) :
    ∀ pre (p : PollResult) rest,
      (∀ q ∈ pre, q.status = .queued ∨ q.status = .in_progress) →
      p.status = .requires_action →
      runLoop tid none fm (pre ++ p :: rest)
        = (.error .unsupportedToolExecution,
           List.replicate (pre.length + 1) (.getRunStatus tid)) := by
  intro pre
  induction pre with
  | nil =>
    intro p rest _ hp
    rw [List.nil_append]
    unfold runLoop
    rw [if_pos hp]
    rfl
  | cons q pre ih =>
    intro p rest hpre hp
    have hq := hpre q (List.mem_cons_self q pre)
    have h1 : ¬ q.status = .requires_action := by
      rcases hq with h | h <;> rw [h] <;> decide
    have h2 : ¬ q.status = .completed := by
      rcases hq with h | h <;> rw [h] <;> decide
    have h3 : ¬ (q.status = .failed ∨ q.status = .cancelled ∨ q.status = .expired) := by
      rcases hq with h | h <;> rw [h] <;> decide
    rw [List.cons_append]
    unfold runLoop
    rw [if_neg h1, if_neg h2, if_neg h3,
      ih p rest (fun x hx => hpre x (List.mem_cons_of_mem q hx)) hp]
    simp [List.replicate_succ, List.length_cons]

/-- C8: if the run pauses for action and no `run_handler` was supplied,
`process_message` raises `Function execution not supported` right at
that poll — it performs exactly one status poll per iteration up to and
including the pausing one, and does not keep polling. -/
theorem c8_no_handler_unsupported (tid msg aid : String) (fm : List (List String))
    (pre rest : List PollResult) (p : PollResult)
    (hpre : ∀ q ∈ pre, q.status = .queued ∨ q.status = .in_progress)
    (hp : p.status = .requires_action) :
    (process_message tid msg aid none ⟨pre ++ p :: rest, fm⟩).1
        = .error .unsupportedToolExecution ∧
    (process_message tid msg aid none ⟨pre ++ p :: rest, fm⟩).2.countP
        isGetRunStatus = pre.length + 1 := by
  unfold process_message
  have hrun := runLoop_unsupported tid fm pre p rest hpre hp
  dsimp only at hrun ⊢
  rw [hrun]
  refine ⟨rfl, ?_⟩
  have hz := countP_replicate_all isGetRunStatus (ApiReq.getRunStatus tid)
    (pre.length + 1) rfl
  simp [List.countP_cons, hz, isGetRunStatus]

/-- C8 witness: `queued → requires_action` with no handler fails after
exactly two polls. -/
theorem c8_witness :
    ((∀ q ∈ pre8, q.status = .queued ∨ q.status = .in_progress) ∧
      p8.status = .requires_action) ∧
    ((process_message ("t1") ("hello") ("a1") none ⟨pre8 ++ p8 :: [], []⟩).1
        = .error .unsupportedToolExecution ∧
      (process_message ("t1") ("hello") ("a1") none ⟨pre8 ++ p8 :: [], []⟩).2.countP
          isGetRunStatus = pre8.length + 1) :=
  ⟨⟨by decide, by decide⟩,
    c8_no_handler_unsupported ("t1") ("hello") ("a1") [] pre8 [] p8 (by decide) (by decide)⟩
